import Mathlib

/-!
Verification development for the agent-inference task pipeline.

Shallow embedding of the orchestrator and its resilience layer:
the task pipeline (internal/agent), the HCS handler and transport
(internal/hcs), the DA retry policy (internal/zerog/da), the compute
broker with its provider cache and auth retry (internal/zerog/compute),
and the iNFT metadata encryption wrapper (internal/zerog/inft).

External effects (HTTP calls, chain calls, channels, clocks) are
modelled as explicit oracles passed to the embedded functions; each
embedded function also returns the trace of outbound calls it made, so
that counting and ordering properties can be stated.
-/

namespace AgentInference

/-! ## Data model (internal/hcs/messages.go, internal/zerog/compute/models.go,
internal/zerog/da/models.go, internal/zerog/storage, internal/zerog/inft) -/

/-- JobStatus from compute/models.go. -/
inductive JobStatus
  | pending
  | running
  | completed
  | failed
deriving DecidableEq, Repr

/-- TaskAssignment from hcs/messages.go (fields the pipeline reads). -/
structure TaskAssignment where
  taskID : String
  modelID : String
  input : String
  maxTokens : Nat := 0
deriving DecidableEq, Repr

/-- JobRequest from compute/models.go (fields the agent sets). -/
structure JobRequest where
  modelID : String
  input : String
  maxTokens : Nat := 0
deriving DecidableEq, Repr

/-- JobResult from compute/models.go. -/
structure JobResult where
  jobID : String := ""
  status : JobStatus
  output : String := ""
  modelID : String := ""
  tokensUsed : Nat := 0
deriving DecidableEq, Repr

/-- TaskResult from hcs/messages.go. The Go `Error` field is `error` here. -/
structure TaskResult where
  taskID : String
  status : String
  output : String := ""
  tokensUsed : Nat := 0
  storageContentID : String := ""
  inftTokenID : String := ""
  auditSubmissionID : String := ""
  error : String := ""
deriving DecidableEq, Repr

/-- EventType from da/models.go. -/
inductive EventType
  | taskReceived
  | jobSubmitted
  | jobCompleted
  | jobFailed
  | resultStored
  | inftMinted
  | resultReport
deriving DecidableEq, Repr

/-- AuditEvent from da/models.go (fields the agent sets; the timestamp is
not modelled). -/
structure AuditEvent where
  type : EventType
  agentID : String
  taskID : String := ""
  jobID : String := ""
  storageRef : String := ""
  inftRef : String := ""
deriving DecidableEq, Repr

/-- storage.Metadata (fields the agent sets). -/
structure StorageMetadata where
  name : String
  contentType : String
  tags : List (String × String) := []
deriving DecidableEq, Repr

/-- inft.MintRequest (fields the agent sets). -/
structure MintRequest where
  name : String
  inferenceJobID : String
  storageContentID : String
  plaintextMeta : List (String × String) := []
deriving DecidableEq, Repr

/-! ## Agent pipeline (internal/agent/agent.go: processTask, reportFailure,
and the task branch of Run)

The four service clients and the HCS result publisher are modelled as an
environment of oracle functions; each outbound call is also recorded in a
trace so the theorems can count calls and inspect their arguments. -/

/-- The injected dependencies of the Agent, as outcome oracles.
`upload` receives the result output string (the bytes uploaded). -/
structure AgentEnv where
  submitJob : JobRequest → Except String String
  getResult : String → Except String JobResult
  upload : String → StorageMetadata → Except String String
  mint : MintRequest → Except String String
  auditPublish : AuditEvent → Except String String
  publishResult : TaskResult → Except String Unit

/-- One outbound call made by the agent, in program order. -/
inductive AgentCall
  | auditPublish (e : AuditEvent)
  | submitJob (r : JobRequest)
  | getResult (jobID : String)
  | upload (data : String) (m : StorageMetadata)
  | mint (r : MintRequest)
  | publishResult (r : TaskResult)
deriving DecidableEq, Repr

/-- The JobRequest processTask builds from a task (step 2). -/
def mkJobRequest (task : TaskAssignment) : JobRequest :=
  { modelID := task.modelID, input := task.input, maxTokens := task.maxTokens }

/-- The task_received audit event of processTask step 1. -/
def receivedEvent (agentID : String) (task : TaskAssignment) : AuditEvent :=
  { type := .taskReceived, agentID := agentID, taskID := task.taskID }

/-- The storage metadata processTask builds in step 4. -/
def storeMetaFor (task : TaskAssignment) : StorageMetadata :=
  { name := "inference-" ++ task.taskID
    contentType := "application/json"
    tags := [("task_id", task.taskID), ("model", task.modelID)] }

/-- The mint request processTask builds in step 5. -/
def mintReqFor (agentID : String) (task : TaskAssignment) (jobID contentID : String) :
    MintRequest :=
  { name := "Inference Result: " ++ task.taskID
    inferenceJobID := jobID
    storageContentID := contentID
    plaintextMeta :=
      [("task_id", task.taskID), ("model_id", task.modelID), ("agent_id", agentID)] }

/-- The job_completed audit event of processTask step 6. -/
def completedEvent (agentID : String) (task : TaskAssignment)
    (jobID contentID tokenID : String) : AuditEvent :=
  { type := .jobCompleted, agentID := agentID, taskID := task.taskID
    jobID := jobID, storageRef := contentID, inftRef := tokenID }

/-- The completed TaskResult of processTask step 7 (DurationMs not modelled). -/
def completedResult (task : TaskAssignment) (res : JobResult)
    (contentID tokenID auditID : String) : TaskResult :=
  { taskID := task.taskID, status := "completed", output := res.output
    tokensUsed := res.tokensUsed, storageContentID := contentID
    inftTokenID := tokenID, auditSubmissionID := auditID }

/-- processTask from internal/agent/agent.go. Returns the pipeline outcome,
the ordered trace of outbound calls, and the increment applied to the
completedTasks counter. Step 1 discards the audit outcome entirely;
step 6 keeps a returned submission ID but discards a publish error
(the Go call returns an empty ID alongside the error). -/
def processTask (env : AgentEnv) (agentID : String) (task : TaskAssignment) :
    Except String Unit × List AgentCall × Nat :=
  let ev1 := receivedEvent agentID task
  let t1 : List AgentCall := [.auditPublish ev1]
  let req := mkJobRequest task
  match env.submitJob req with
  | .error e =>
      (.error ("agent: compute submit failed for task " ++ task.taskID ++ ": " ++ e),
       t1 ++ [.submitJob req], 0)
  | .ok jobID =>
    let t2 := t1 ++ [.submitJob req]
    match env.getResult jobID with
    | .error e =>
        (.error ("agent: compute result failed for job " ++ jobID ++ ": " ++ e),
         t2 ++ [.getResult jobID], 0)
    | .ok res =>
      let t3 := t2 ++ [.getResult jobID]
      match env.upload res.output (storeMetaFor task) with
      | .error e =>
          (.error ("agent: storage upload failed for task " ++ task.taskID ++ ": " ++ e),
           t3 ++ [.upload res.output (storeMetaFor task)], 0)
      | .ok contentID =>
        let t4 := t3 ++ [.upload res.output (storeMetaFor task)]
        match env.mint (mintReqFor agentID task jobID contentID) with
        | .error e =>
            (.error ("agent: iNFT mint failed for task " ++ task.taskID ++ ": " ++ e),
             t4 ++ [.mint (mintReqFor agentID task jobID contentID)], 0)
        | .ok tokenID =>
          let t5 := t4 ++ [.mint (mintReqFor agentID task jobID contentID)]
          let ev2 := completedEvent agentID task jobID contentID tokenID
          let auditID :=
            match env.auditPublish ev2 with
            | .ok s => s
            | .error _ => ""
          let t6 := t5 ++ [.auditPublish ev2]
          let taskRes := completedResult task res contentID tokenID auditID
          match env.publishResult taskRes with
          | .error e =>
              (.error ("agent: result publish failed for task " ++ task.taskID ++ ": " ++ e),
               t6 ++ [.publishResult taskRes], 0)
          | .ok _ => (.ok (), t6 ++ [.publishResult taskRes], 1)

/-- reportFailure from internal/agent/agent.go: publishes a failed
TaskResult and ignores the publish outcome. Returns the call made. -/
def reportFailure (task : TaskAssignment) (taskErr : String) : List AgentCall :=
  [.publishResult { taskID := task.taskID, status := "failed", error := taskErr }]

/-- The task branch of Run from internal/agent/agent.go: process the task;
on error, report the failure and bump failedTasks. Returns the combined
trace and the (completedTasks, failedTasks) increments. -/
def runTaskStep (env : AgentEnv) (agentID : String) (task : TaskAssignment) :
    List AgentCall × Nat × Nat :=
  match processTask env agentID task with
  | (.ok _, tr, c) => (tr, c, 0)
  | (.error e, tr, _) => (tr ++ reportFailure task e, 0, 1)

/-- The audit events attempted in a trace, in order. -/
def auditEvents (tr : List AgentCall) : List AuditEvent :=
  tr.filterMap fun c =>
    match c with
    | .auditPublish e => some e
    | _ => none

/-- The task results published in a trace, in order. -/
def publishedResults (tr : List AgentCall) : List TaskResult :=
  tr.filterMap fun c =>
    match c with
    | .publishResult r => some r
    | _ => none

/-- Whether a call is a storage upload. -/
def AgentCall.isUpload : AgentCall → Bool
  | .upload _ _ => true
  | _ => false

/-- Whether a call is a mint. -/
def AgentCall.isMint : AgentCall → Bool
  | .mint _ => true
  | _ => false

/-! ## DA retry policy (internal/zerog/da/publisher.go: publishWithRetry)

The submit-to-DA operation is an oracle indexed by the attempt number;
the ambient context is modelled by two cancellation schedules: one
observed by the `ctx.Err()` check at the top of each attempt, one by the
select during the backoff after each attempt. -/

/-- Cancellation schedule seen by publishWithRetry. -/
structure RetryCtx where
  cancelledAtAttempt : Nat → Bool
  cancelledInBackoff : Nat → Bool

/-- A context that never fires. -/
def noCancel : RetryCtx := ⟨fun _ => false, fun _ => false⟩

/-- Outcome of a publishWithRetry run: final result, number of operation
invocations, and the backoff durations (in seconds) scheduled between
attempts, in order. -/
structure RetryRun where
  result : Except String String
  calls : Nat
  backoffs : List Nat
deriving Repr

/-- The retry loop of publishWithRetry, recursing on the remaining
iteration budget. `attempt` is the Go loop index; the caller starts it at
0 with budget maxRetries+1, so the zero-budget base case is the
post-loop exhaustion return. -/
def retryFrom (maxRetries : Nat) (ctx : RetryCtx) (op : Nat → Except String String) :
    Nat → Nat → String → RetryRun
  | _attempt, 0, lastErr =>
      ⟨.error ("all " ++ toString (maxRetries + 1) ++ " attempts failed: " ++ lastErr), 0, []⟩
  | attempt, remaining + 1, _lastErr =>
      if ctx.cancelledAtAttempt attempt then
        ⟨.error ("context cancelled on attempt " ++ toString (attempt + 1)), 0, []⟩
      else
        match op attempt with
        | .ok subID => ⟨.ok subID, 1, []⟩
        | .error e =>
          if attempt < maxRetries then
            if ctx.cancelledInBackoff attempt then
              ⟨.error "context cancelled during backoff", 1, [2 ^ attempt]⟩
            else
              let rest := retryFrom maxRetries ctx op (attempt + 1) remaining e
              ⟨rest.result, rest.calls + 1, 2 ^ attempt :: rest.backoffs⟩
          else
            ⟨.error ("all " ++ toString (maxRetries + 1) ++ " attempts failed: " ++ e), 1, []⟩

/-- publishWithRetry from internal/zerog/da/publisher.go. -/
def publishWithRetry (maxRetries : Nat) (ctx : RetryCtx)
    (op : Nat → Except String String) : RetryRun :=
  retryFrom maxRetries ctx op 0 (maxRetries + 1) ""

/-- NewPublisher config defaulting (publisher.go): MaxRetries 0 becomes 3. -/
def resolveMaxRetries (cfg : Nat) : Nat :=
  if cfg = 0 then 3 else cfg

/-- The exponential backoff schedule: n waits starting at 2^a seconds and
doubling, i.e. [2^a, 2^(a+1), ...]; the retry loop's schedule is
backoffSeq 0 n = [1, 2, 4, ...]. -/
def backoffSeq : Nat → Nat → List Nat
  | _a, 0 => []
  | a, n + 1 => 2 ^ a :: backoffSeq (a + 1) n

/-! ## HCS transport reconnect loop (internal/hcs/transport.go:
runSubscription) and handler consumer loop (internal/hcs/handler.go:
StartSubscription)

runSubscription is driven by an oracle giving each subscribeOnce outcome
(`none` = returned nil, i.e. the context ended a healthy subscription;
`some e` = the attempt failed with error e) and by three cancellation
schedules for the three places the loop observes the context. The
stream-close performed by the deferred closes is recorded as two flags.

StartSubscription is driven by the sequence of select outcomes it
observes: context done, a value from the error stream, or a value from
the message stream (`none` = stream closed). -/

/-- Cancellation schedule seen by runSubscription. -/
structure SubCtx where
  cancelledAtLoop : Nat → Bool
  cancelledAfterSub : Nat → Bool
  cancelledInDelay : Nat → Bool

/-- A subscription context that never fires. -/
def noSubCancel : SubCtx := ⟨fun _ => false, fun _ => false, fun _ => false⟩

/-- An error emission attempted on the transport error stream. -/
inductive SubEmit
  | attemptErr (attempt : Nat) (e : String)
  | exhausted (total : Nat)
deriving DecidableEq, Repr

/-- Outcome of runSubscription: subscribeOnce invocation count, attempted
error-stream emissions in order, and whether the two streams were closed
(the deferred closes). -/
structure SubRunResult where
  attempts : Nat
  emitted : List SubEmit
  msgClosed : Bool
  errClosed : Bool
deriving DecidableEq, Repr

/-- The reconnect loop of runSubscription, recursing on the remaining
iteration budget; the zero-budget base case is the post-loop exhaustion
emission. -/
def subLoop (maxReconnects : Nat) (ctx : SubCtx) (subOutcome : Nat → Option String) :
    Nat → Nat → Nat × List SubEmit
  | _i, 0 => (0, [.exhausted (maxReconnects + 1)])
  | i, r + 1 =>
      if ctx.cancelledAtLoop i then (0, [])
      else
        match subOutcome i with
        | none => (1, [])
        | some e =>
          if ctx.cancelledAfterSub i then (1, [])
          else if ctx.cancelledInDelay i then (1, [.attemptErr (i + 1) e])
          else
            let rest := subLoop maxReconnects ctx subOutcome (i + 1) r
            (rest.1 + 1, .attemptErr (i + 1) e :: rest.2)

/-- runSubscription from internal/hcs/transport.go. Both streams are
closed by deferred closes on every path. -/
def runSubscription (maxReconnects : Nat) (ctx : SubCtx)
    (subOutcome : Nat → Option String) : SubRunResult :=
  let r := subLoop maxReconnects ctx subOutcome 0 (maxReconnects + 1)
  ⟨r.1, r.2, true, true⟩

/-- NewHCSTransport config defaulting (transport.go): MaxReconnects ≤ 0
becomes 10. -/
def resolveMaxReconnects (cfg : Int) : Nat :=
  if cfg ≤ 0 then 10 else cfg.toNat

/-- The error-stream emissions produced when every attempt starting at
attempt index `i` fails, with budget `r`; used to state the exhaustion
theorem. -/
def expectedEmits (maxReconnects : Nat) (errs : Nat → String) : Nat → Nat → List SubEmit
  | _i, 0 => [.exhausted (maxReconnects + 1)]
  | i, r + 1 => .attemptErr (i + 1) (errs i) :: expectedEmits maxReconnects errs (i + 1) r

/-- MessageType from hcs/messages.go. -/
inductive MessageType
  | taskAssignment
  | statusUpdate
  | taskResult
  | heartbeat
deriving DecidableEq, Repr

/-- A raw message as the handler's processMessage sees it after the
envelope and payload JSON parses: either malformed bytes, or an envelope
whose payload may or may not parse as a TaskAssignment. -/
inductive RawMsg
  | malformed
  | envelope (type : MessageType) (recipient : String) (payload : Option TaskAssignment)
deriving DecidableEq, Repr

/-- processMessage from internal/hcs/handler.go: drop malformed messages,
non-task messages, and messages addressed to someone else; enqueue the
parsed task otherwise. -/
def processMessage (agentID : String) (queue : List TaskAssignment) (m : RawMsg) :
    List TaskAssignment :=
  match m with
  | .malformed => queue
  | .envelope t recip payload =>
    if t ≠ .taskAssignment then queue
    else if recip ≠ "" ∧ recip ≠ agentID then queue
    else
      match payload with
      | none => queue
      | some task => queue ++ [task]

/-- One select outcome observed by the StartSubscription loop. -/
inductive LoopEvent
  | ctxDone
  | errEvent (e : Option String)
  | msgEvent (m : Option RawMsg)
deriving DecidableEq, Repr

/-- Whether the StartSubscription loop has returned, and with what. -/
inductive LoopResult
  | running
  | returned (r : Except String Unit)
deriving Repr

/-- The select loop of StartSubscription from internal/hcs/handler.go,
consuming the observed events in order and accumulating the task queue:
context done returns ctx.Err(); a non-nil value on the error stream
returns ErrSubscriptionFailed; a nil error value loops; a closed message
stream returns nil; a message is handed to processMessage. -/
def startSubLoop (agentID : String) :
    List LoopEvent → List TaskAssignment → LoopResult × List TaskAssignment
  | [], q => (.running, q)
  | e :: rest, q =>
      match e with
      | .ctxDone => (.returned (.error "context canceled"), q)
      | .errEvent none => startSubLoop agentID rest q
      | .errEvent (some _) =>
          (.returned (.error "hcs: subscription error: hcs: topic subscription failed"), q)
      | .msgEvent none => (.returned (.ok ()), q)
      | .msgEvent (some m) => startSubLoop agentID rest (processMessage agentID q m)

/-! ## Compute broker session auth (src/unnamed/part_005: buildAuthToken,
doWithAuthRetry)

The ECDSA signature over the keccak hash of the timestamp string comes
from the external go-ethereum library (deterministic per key and
message); it is abstracted as the pair of key and timestamp, which keeps
exactly the property the code relies on: a fresh timestamp yields a
fresh signature. HTTP responses come from an oracle indexed by the
request number. -/

/-- The signed bearer credential built by buildAuthToken: the timestamp
message and its signature (abstracted external ECDSA). -/
structure AuthToken where
  timestamp : Nat
  sig : Nat × Nat
deriving DecidableEq, Repr

/-- Abstracted crypto.Sign over the keccak hash of the timestamp string:
deterministic in the key and message. -/
def signAuth (key ts : Nat) : Nat × Nat := (key, ts)

/-- buildAuthToken from src/unnamed/part_005: sign the current Unix
timestamp. -/
def buildAuthToken (key now : Nat) : AuthToken :=
  ⟨now, signAuth key now⟩

/-- An HTTP response as the broker reads it. -/
structure HttpResponse where
  status : Nat
  body : String
deriving DecidableEq, Repr

/-- The unauthorized status code checked by doWithAuthRetry. -/
def unauthorizedStatus : Nat := 401

/-- Outcome of a doWithAuthRetry run: final result, number of HTTP
requests performed, and the Authorization token attached to each request
in order (`none` when no key is configured). -/
structure AuthRetryRun where
  result : Except String HttpResponse
  calls : Nat
  tokens : List (Option AuthToken)
deriving Repr

/-- doWithAuthRetry from src/unnamed/part_005. `hasKey` is whether
b.key is non-nil; `now1` is the time the original token was built (by
SubmitJob), `now2` the time of the refresh; `respond i` is the outcome of
the i-th HTTP call. A transport error is returned at once; a first 401
with a key triggers exactly one retry with a freshly built token; every
other first response, and whatever the second call yields, is returned
to the caller as is. -/
def doWithAuthRetry (hasKey : Bool) (key now1 now2 : Nat)
    (respond : Nat → Except String HttpResponse) : AuthRetryRun :=
  let firstTok := if hasKey then some (buildAuthToken key now1) else none
  match respond 0 with
  | .error _ =>
      ⟨.error "compute: provider request failed: compute: broker is unreachable", 1, [firstTok]⟩
  | .ok resp =>
    if resp.status ≠ unauthorizedStatus ∨ ¬hasKey then ⟨.ok resp, 1, [firstTok]⟩
    else
      let freshTok := buildAuthToken key now2
      match respond 1 with
      | .error _ =>
          ⟨.error "compute: retry request failed: compute: broker is unreachable", 2,
           [firstTok, some freshTok]⟩
      | .ok resp2 => ⟨.ok resp2, 2, [firstTok, some freshTok]⟩

/-- The status check SubmitJob applies to the response returned by
doWithAuthRetry: any non-200 status becomes a terminal error. -/
def submitStatusCheck (r : Except String HttpResponse) : Except String HttpResponse :=
  match r with
  | .error e => .error e
  | .ok resp =>
    if resp.status ≠ 200 then
      .error ("compute: provider returned status " ++ toString resp.status ++ ": " ++ resp.body)
    else .ok resp

/-! ## Provider cache (internal/zerog/compute/broker.go: cachedModels,
cacheModels, ListModels)

Wall-clock time is a Nat of seconds passed explicitly; the discovery
HTTP call is an oracle outcome. listModels returns the result, the new
cache state, and the number of discovery calls issued. -/

/-- Model from compute/models.go. -/
structure Model where
  id : String
  name : String
  provider : String
  serviceType : String := ""
  url : String := ""
deriving DecidableEq, Repr

/-- serviceEntry from compute/broker.go (the discovery response rows). -/
structure ServiceEntry where
  provider : String
  name : String
  serviceType : String
  url : String
  model : String
deriving DecidableEq, Repr

/-- The Model built from a discovery row in ListModels. -/
def toModel (svc : ServiceEntry) : Model :=
  { id := svc.model, name := svc.name, provider := svc.provider
    serviceType := svc.serviceType, url := svc.url }

/-- The broker's model cache fields (models, modelsTTL). `modelsTTL` is
the expiry instant in seconds. -/
structure ModelCache where
  models : Option (List Model)
  modelsTTL : Nat
deriving DecidableEq, Repr

/-- modelCacheDuration from compute/broker.go (5 minutes, in seconds). -/
def modelCacheDuration : Nat := 300

/-- cachedModels from compute/broker.go: a hit only when models is
non-nil and now is before the TTL instant. -/
def cachedModels (now : Nat) (c : ModelCache) : Option (List Model) :=
  match c.models with
  | some ms => if now < c.modelsTTL then some ms else none
  | none => none

/-- cacheModels from compute/broker.go: wholesale replacement and a full
fresh TTL window. -/
def cacheModels (now : Nat) (ms : List Model) : ModelCache :=
  { models := some ms, modelsTTL := now + modelCacheDuration }

/-- Outcome of the discovery HTTP call in ListModels. -/
inductive DiscoveryOutcome
  | transportErr
  | badStatus (code : Nat) (body : String)
  | parseErr
  | entries (services : List ServiceEntry)
deriving DecidableEq, Repr

/-- ListModels from internal/zerog/compute/broker.go: serve from the
cache when valid, otherwise issue one discovery call; on success with a
non-empty service list, cache the mapped models and reset the TTL. The
third component counts discovery calls issued. -/
def listModels (now : Nat) (cancelled : Bool) (c : ModelCache) (disc : DiscoveryOutcome) :
    Except String (List Model) × ModelCache × Nat :=
  if cancelled then (.error "compute: context cancelled", c, 0)
  else
    match cachedModels now c with
    | some ms => (.ok ms, c, 0)
    | none =>
      match disc with
      | .transportErr =>
          (.error "compute: failed to list services: compute: broker is unreachable", c, 1)
      | .badStatus code body =>
          (.error ("compute: list services returned status " ++ toString code ++ ": " ++ body), c, 1)
      | .parseErr => (.error "compute: failed to parse services", c, 1)
      | .entries services =>
        if services.isEmpty then (.error "compute: no models available", c, 1)
        else (.ok (services.map toModel), cacheModels now (services.map toModel), 1)

/-! ## Compute broker submit and result cache (src/unnamed/part_005:
SubmitJob, GetResult)

The results sync.Map is an association list with insert-at-front
overwrite semantics; the provider resolution and the HTTP round trip of
SubmitJob are oracle outcomes. GetResult reports whether it entered the
poll loop. -/

/-- The parsed OpenAI-style chat response (fields SubmitJob reads):
choices carry the message contents. -/
structure ChatResponse where
  id : String
  model : String
  choices : List String
  totalTokens : Nat
  error : Option String
deriving DecidableEq, Repr

/-- The broker's results map (jobID to JobResult). -/
abbrev ResultsMap := List (String × JobResult)

/-- sync.Map Store: later writes shadow earlier ones. -/
def storeResult (m : ResultsMap) (k : String) (v : JobResult) : ResultsMap :=
  (k, v) :: m

/-- sync.Map Load. -/
def loadResult (m : ResultsMap) (k : String) : Option JobResult :=
  (List.find? (fun p => p.1 = k) m).map Prod.snd

/-- The HTTP-and-parse phase of SubmitJob, condensed to its outcome. -/
inductive SubmitWebOutcome
  | transportErr
  | httpStatus (code : Nat) (body : String)
  | parseErr
  | parsed (resp : ChatResponse)
deriving DecidableEq, Repr

/-- The JobResult SubmitJob caches for a successful chat response. -/
def cachedJobResult (resp : ChatResponse) : JobResult :=
  { jobID := resp.id, status := .completed, output := resp.choices.headD ""
    modelID := resp.model, tokensUsed := resp.totalTokens }

/-- SubmitJob from src/unnamed/part_005: context check, provider
resolution, HTTP round trip, status and error checks; on success the
result is cached under the provider-assigned job ID, which is returned. -/
def submitJob (st : ResultsMap) (cancelled : Bool)
    (providerRes : Except String String) (web : SubmitWebOutcome) :
    Except String String × ResultsMap :=
  if cancelled then (.error "compute: context cancelled before submit", st)
  else
    match providerRes with
    | .error e => (.error ("compute: resolve provider: " ++ e), st)
    | .ok _providerURL =>
      match web with
      | .transportErr =>
          (.error "compute: provider request failed: compute: broker is unreachable", st)
      | .httpStatus code body =>
          (.error ("compute: provider returned status " ++ toString code ++ ": " ++ body), st)
      | .parseErr => (.error "compute: parse response", st)
      | .parsed resp =>
        match resp.error with
        | some msg => (.error ("compute: API error: " ++ msg ++ ": compute: job execution failed"), st)
        | none => (.ok resp.id, storeResult st resp.id (cachedJobResult resp))

/-- The poll loop of GetResult: each iteration observes cancellation,
then the deadline (fuel exhaustion), then a tick that rechecks the
results map. -/
def pollLoop (st : ResultsMap) (jobID : String) (cancelAtTick : Nat → Bool) :
    Nat → Nat → Except String JobResult
  | _tick, 0 => .error ("compute: timeout waiting for job " ++ jobID)
  | tick, fuel + 1 =>
      if cancelAtTick tick then
        .error ("compute: context cancelled polling job " ++ jobID)
      else
        match loadResult st jobID with
        | some r => .ok r
        | none => pollLoop st jobID cancelAtTick (tick + 1) fuel

/-- The number of poll ticks before the overall deadline fires. -/
def pollBudget (pollInterval pollTimeout : Nat) : Nat :=
  pollTimeout / pollInterval

/-- GetResult from src/unnamed/part_005: context check, then the cache
short-circuit, then the poll loop. The Bool reports whether the poll
loop was entered. -/
def getResult (pollInterval pollTimeout : Nat) (st : ResultsMap) (cancelled : Bool)
    (cancelAtTick : Nat → Bool) (jobID : String) : Except String JobResult × Bool :=
  if cancelled then (.error "compute: context cancelled", false)
  else
    match loadResult st jobID with
    | some r => (.ok r, false)
    | none => (pollLoop st jobID cancelAtTick 0 (pollBudget pollInterval pollTimeout), true)

/-! ## iNFT metadata encryption (internal/zerog/inft/encrypt.go)

The repository code validates the key length, serializes the metadata
map to JSON, and delegates to AES-256-GCM from Go's crypto library with
a fresh random nonce. The external AEAD primitive is modelled as the
spec's "symmetric authenticated encryption": sealing binds the key and
nonce to the payload, and opening verifies them. JSON round-tripping of
a string map is the identity on the canonical association-list
representation used here, and the random nonce is an explicit input. -/

/-- An AEAD ciphertext of the idealized AES-256-GCM primitive: opening
succeeds exactly under the sealing key and nonce. -/
structure GCMCipher where
  sealedKey : List Nat
  sealedNonce : List Nat
  payload : List (String × String)
deriving DecidableEq, Repr

/-- Idealized gcm.Seal. -/
def gcmSeal (key nonce : List Nat) (pt : List (String × String)) : GCMCipher :=
  ⟨key, nonce, pt⟩

/-- Idealized gcm.Open: authentication fails under any other key or
nonce. -/
def gcmOpen (key nonce : List Nat) (c : GCMCipher) : Option (List (String × String)) :=
  if c.sealedKey = key ∧ c.sealedNonce = nonce then some c.payload else none

/-- EncryptedMeta from inft (ciphertext, nonce, key ID, algorithm tag). -/
structure EncryptedMeta where
  ciphertext : GCMCipher
  nonce : List Nat
  keyID : String
  algorithm : String
deriving DecidableEq, Repr

/-- encryptMetadata from internal/zerog/inft/encrypt.go; the fresh random
nonce is passed explicitly. -/
def encryptMetadata (key : List Nat) (keyID : String) (meta : List (String × String))
    (nonce : List Nat) : Except String EncryptedMeta :=
  if key.length ≠ 32 then
    .error ("inft: encryption key must be 32 bytes, got " ++ toString key.length ++
      ": inft: metadata encryption failed")
  else
    .ok { ciphertext := gcmSeal key nonce meta, nonce := nonce
          keyID := keyID, algorithm := "AES-256-GCM" }

/-- decryptMetadata from internal/zerog/inft/encrypt.go. -/
def decryptMetadata (key : List Nat) (enc : EncryptedMeta) :
    Except String (List (String × String)) :=
  if key.length ≠ 32 then
    .error ("inft: decryption key must be 32 bytes, got " ++ toString key.length ++
      ": inft: metadata encryption failed")
  else
    match gcmOpen key enc.nonce enc.ciphertext with
    | none => .error "inft: decryption failed: inft: metadata encryption failed"
    | some pt => .ok pt

/-! ## Concrete instances for witnesses and counterexamples -/

/-- An environment in which every downstream call succeeds, using the
end-to-end demo values of the spec. -/
def happyEnv : AgentEnv :=
  { submitJob := fun _ => .ok "job-1"
    getResult := fun _ =>
      .ok { jobID := "job-1", status := .completed, output := "4", tokensUsed := 3 }
    upload := fun _ _ => .ok "cid-1"
    mint := fun _ => .ok "42"
    auditPublish := fun _ => .ok "sub-1"
    publishResult := fun _ => .ok () }

/-- The demo task of the spec's end-to-end property. -/
def demoTask : TaskAssignment := { taskID := "t-1", modelID := "m-1", input := "2+2?" }

/-- The job result happyEnv returns. -/
def demoJobResult : JobResult :=
  { jobID := "job-1", status := .completed, output := "4", tokensUsed := 3 }

/-- An environment whose compute submit fails and whose publishes succeed. -/
def computeFailEnv : AgentEnv :=
  { submitJob := fun _ => .error "compute down"
    getResult := fun _ => .error "unused"
    upload := fun _ _ => .error "unused"
    mint := fun _ => .error "unused"
    auditPublish := fun _ => .ok "sub-1"
    publishResult := fun _ => .ok () }

/-- An environment in which only the audit publishes fail. -/
def auditFailEnv : AgentEnv :=
  { submitJob := fun _ => .ok "job-1"
    getResult := fun _ =>
      .ok { jobID := "job-1", status := .completed, output := "4", tokensUsed := 3 }
    upload := fun _ _ => .ok "cid-1"
    mint := fun _ => .ok "42"
    auditPublish := fun _ => .error "da down"
    publishResult := fun _ => .ok () }

/-- A retry operation that fails once and then succeeds. -/
def demoRetryOp : Nat → Except String String :=
  fun i => if i = 0 then .error "boom" else .ok "sub-1"

/-- A subscription context that is already cancelled at the first loop
check. -/
def demoSubCtx : SubCtx := ⟨fun _ => true, fun _ => false, fun _ => false⟩

/-- A valid broadcast task-assignment message. -/
def demoRawTask : TaskAssignment := { taskID := "task-200", modelID := "m-1", input := "hi" }

/-- The raw message carrying demoRawTask. -/
def demoRaw : RawMsg := .envelope .taskAssignment "" (some demoRawTask)

/-- A stale cache holding an earlier provider set whose TTL has passed by
time 500. -/
def demoOldCache : ModelCache :=
  { models := some [{ id := "old-model", name := "old", provider := "0xold" }]
    modelsTTL := 100 }

/-- A one-row discovery response. -/
def demoServices : List ServiceEntry :=
  [{ provider := "0xprov", name := "svc", serviceType := "chat", url := "http-url"
     model := "m-1" }]

/-- A 32-byte encryption key. -/
def demoKey : List Nat := List.replicate 32 7

/-- A different 32-byte key. -/
def demoKey2 : List Nat := List.replicate 32 9

/-- A 16-byte (invalid) key. -/
def demoBadKey : List Nat := List.replicate 16 0

/-- A demo metadata map. -/
def demoMeta : List (String × String) := [("model", "qwen-2.5-7b"), ("job_id", "job-123")]

/-- A demo 12-byte GCM nonce. -/
def demoNonce : List Nat := [1, 2, 3, 4, 5, 6, 7, 8, 9, 10, 11, 12]

/-- The encryption of demoMeta under demoKey with demoNonce. -/
def demoEncrypted : EncryptedMeta :=
  { ciphertext := gcmSeal demoKey demoNonce demoMeta, nonce := demoNonce
    keyID := "key-1", algorithm := "AES-256-GCM" }

/-- A successful provider chat response. -/
def demoChatResp : ChatResponse :=
  { id := "job-1", model := "m-1", choices := ["4"], totalTokens := 3, error := none }

/-! ## Theorems -/

/-- Claim C1: for every task assignment whose model ID resolves to a
provider and for which every downstream call (compute submit, result
poll, storage upload, mint, audit publish, result publish) succeeds,
processTask returns without error, publishes exactly one task_result and
it has status "completed", and the run increments completedTasks by
exactly one and leaves failedTasks unchanged. -/
theorem processTask_success_spec (env : AgentEnv) (agentID : String)
    (task : TaskAssignment) (jobID contentID tokenID auditID : String) (res : JobResult)
    (hsub : env.submitJob (mkJobRequest task) = .ok jobID)
    (hres : env.getResult jobID = .ok res)
    (hup : env.upload res.output (storeMetaFor task) = .ok contentID)
    (hmint : env.mint (mintReqFor agentID task jobID contentID) = .ok tokenID)
    (haud : env.auditPublish (completedEvent agentID task jobID contentID tokenID) = .ok auditID)
    (hpub : env.publishResult (completedResult task res contentID tokenID auditID) = .ok ()) :
    (processTask env agentID task).1 = .ok () ∧
    publishedResults (processTask env agentID task).2.1 =
      [completedResult task res contentID tokenID auditID] ∧
    (completedResult task res contentID tokenID auditID).status = "completed" ∧
    runTaskStep env agentID task = ((processTask env agentID task).2.1, 1, 0) := by
  simp only [processTask, runTaskStep, publishedResults, hsub, hres, hup, hmint, haud, hpub]
  simp [completedResult]

/-- Witness for C1: the fully successful demo run. -/
theorem processTask_success_spec_witness :
    (processTask happyEnv "agent-1" demoTask).1 = .ok () ∧
    publishedResults (processTask happyEnv "agent-1" demoTask).2.1 =
      [completedResult demoTask demoJobResult "cid-1" "42" "sub-1"] ∧
    (completedResult demoTask demoJobResult "cid-1" "42" "sub-1").status = "completed" ∧
    runTaskStep happyEnv "agent-1" demoTask =
      ((processTask happyEnv "agent-1" demoTask).2.1, 1, 0) :=
  processTask_success_spec happyEnv "agent-1" demoTask "job-1" "cid-1" "42" "sub-1"
    demoJobResult rfl rfl rfl rfl rfl rfl

/-- Claim C2: for every task assignment for which the Compute client's
SubmitJob call returns an error, processTask returns an error so the run
ends failed with failedTasks incremented and completedTasks unchanged,
exactly one outbound failure report is published, its error field is
non-empty, and no storage upload, mint, or job-completed audit publish
occurs for that task (the only audit publish attempted is task_received). -/
theorem processTask_computeFail_spec (env : AgentEnv) (agentID : String)
    (task : TaskAssignment) (e : String)
    (hsub : env.submitJob (mkJobRequest task) = .error e) :
    (processTask env agentID task).1 =
      .error ("agent: compute submit failed for task " ++ task.taskID ++ ": " ++ e) ∧
    (runTaskStep env agentID task).2 = (0, 1) ∧
    publishedResults (runTaskStep env agentID task).1 =
      [{ taskID := task.taskID, status := "failed",
         error := "agent: compute submit failed for task " ++ task.taskID ++ ": " ++ e }] ∧
    ("agent: compute submit failed for task " ++ task.taskID ++ ": " ++ e) ≠ "" ∧
    (runTaskStep env agentID task).1.filter (fun c => c.isUpload || c.isMint) = [] ∧
    (auditEvents (runTaskStep env agentID task).1).map AuditEvent.type = [.taskReceived] := by
  refine ⟨?_, ?_, ?_, ?_, ?_, ?_⟩
  · simp [processTask, hsub]
  · simp [runTaskStep, processTask, hsub, reportFailure]
  · simp [runTaskStep, processTask, hsub, reportFailure, publishedResults]
  · intro h
    have hlen := congrArg String.length h
    simp only [String.length_append] at hlen
    have hpos : (0 : Nat) < ("agent: compute submit failed for task ").length := by decide
    have hz : ("" : String).length = 0 := rfl
    omega
  · simp [runTaskStep, processTask, hsub, reportFailure, AgentCall.isUpload, AgentCall.isMint]
  · simp [runTaskStep, processTask, hsub, reportFailure, auditEvents, receivedEvent]

/-- Witness for C2: the failing-compute demo run. -/
theorem processTask_computeFail_spec_witness :
    (processTask computeFailEnv "agent-1" demoTask).1 =
      .error ("agent: compute submit failed for task " ++ demoTask.taskID ++ ": " ++ "compute down") ∧
    (runTaskStep computeFailEnv "agent-1" demoTask).2 = (0, 1) ∧
    publishedResults (runTaskStep computeFailEnv "agent-1" demoTask).1 =
      [{ taskID := demoTask.taskID, status := "failed",
         error := "agent: compute submit failed for task " ++ demoTask.taskID ++ ": " ++ "compute down" }] ∧
    ("agent: compute submit failed for task " ++ demoTask.taskID ++ ": " ++ "compute down") ≠ "" ∧
    (runTaskStep computeFailEnv "agent-1" demoTask).1.filter (fun c => c.isUpload || c.isMint) = [] ∧
    (auditEvents (runTaskStep computeFailEnv "agent-1" demoTask).1).map AuditEvent.type =
      [.taskReceived] :=
  processTask_computeFail_spec computeFailEnv "agent-1" demoTask "compute down" rfl

/-- Claim C4, counterexample: on a fully successful run the orchestrator
does not attempt one audit publish per stage checkpoint; it attempts
exactly two (task_received and job_completed), so the six-checkpoint
sequence claimed is not what is published. -/
theorem processTask_audit_counterexample :
    (auditEvents (processTask happyEnv "agent-1" demoTask).2.1).map AuditEvent.type =
      [.taskReceived, .jobCompleted] ∧
    ¬ (auditEvents (processTask happyEnv "agent-1" demoTask).2.1).map AuditEvent.type =
      [.taskReceived, .jobSubmitted, .jobCompleted, .resultStored, .inftMinted, .resultReport] := by
  constructor
  · rfl
  · intro h
    have h2 : ([.taskReceived, .jobCompleted] : List EventType) =
        [.taskReceived, .jobSubmitted, .jobCompleted, .resultStored, .inftMinted, .resultReport] := by
      rw [← h]; rfl
    simp at h2

/-- Claim C4 (amended): on every successful pipeline run exactly two audit
publishes are attempted — task_received before compute submission and
job_completed after minting, in that order — and audit publishing is
best-effort: whatever the audit publisher returns at either checkpoint,
the pipeline still completes. -/
theorem processTask_audit_spec (env : AgentEnv) (agentID : String)
    (task : TaskAssignment) (jobID contentID tokenID : String) (res : JobResult)
    (hsub : env.submitJob (mkJobRequest task) = .ok jobID)
    (hres : env.getResult jobID = .ok res)
    (hup : env.upload res.output (storeMetaFor task) = .ok contentID)
    (hmint : env.mint (mintReqFor agentID task jobID contentID) = .ok tokenID)
    (hpub : ∀ r, env.publishResult r = .ok ()) :
    (processTask env agentID task).1 = .ok () ∧
    auditEvents (processTask env agentID task).2.1 =
      [receivedEvent agentID task, completedEvent agentID task jobID contentID tokenID] ∧
    (auditEvents (processTask env agentID task).2.1).map AuditEvent.type =
      [.taskReceived, .jobCompleted] := by
  cases haud : env.auditPublish (completedEvent agentID task jobID contentID tokenID) with
  | ok s =>
    simp only [processTask, auditEvents, hsub, hres, hup, hmint, haud, hpub]
    simp [receivedEvent, completedEvent]
  | error msg =>
    simp only [processTask, auditEvents, hsub, hres, hup, hmint, haud, hpub]
    simp [receivedEvent, completedEvent]

/-- Witness for amended C4: the run whose audit publishes both fail still
completes and attempts exactly the two checkpoint events. -/
theorem processTask_audit_spec_witness :
    (processTask auditFailEnv "agent-1" demoTask).1 = .ok () ∧
    auditEvents (processTask auditFailEnv "agent-1" demoTask).2.1 =
      [receivedEvent "agent-1" demoTask, completedEvent "agent-1" demoTask "job-1" "cid-1" "42"] ∧
    (auditEvents (processTask auditFailEnv "agent-1" demoTask).2.1).map AuditEvent.type =
      [.taskReceived, .jobCompleted] :=
  processTask_audit_spec auditFailEnv "agent-1" demoTask "job-1" "cid-1" "42"
    demoJobResult rfl rfl rfl rfl (fun _ => rfl)

/-- The never-firing retry context never fires at an attempt check. -/
theorem noCancel_at (i : Nat) : noCancel.cancelledAtAttempt i = false := rfl

/-- The never-firing retry context never fires during a backoff. -/
theorem noCancel_back (i : Nat) : noCancel.cancelledInBackoff i = false := rfl

/-- Retry loop, success case: N failures from `attempt` onward followed by
a success use N+1 invocations and the doubling backoff schedule. -/
theorem retryFrom_ok (maxRetries : Nat) (op : Nat → Except String String) :
    ∀ (N attempt : Nat) (lastErr subID : String),
      attempt + N ≤ maxRetries →
      (∀ i, i < N → ∃ e, op (attempt + i) = .error e) →
      op (attempt + N) = .ok subID →
      retryFrom maxRetries noCancel op attempt (maxRetries + 1 - attempt) lastErr =
        ⟨.ok subID, N + 1, backoffSeq attempt N⟩ := by
  intro N
  induction N with
  | zero =>
    intro attempt lastErr subID hle hfail hok
    have h1 : maxRetries + 1 - attempt = (maxRetries - attempt) + 1 := by omega
    rw [Nat.add_zero] at hok
    rw [h1, retryFrom]
    simp [noCancel_at, hok, backoffSeq]
  | succ N ih =>
    intro attempt lastErr subID hle hfail hok
    have h1 : maxRetries + 1 - attempt = (maxRetries - attempt) + 1 := by omega
    obtain ⟨e, he⟩ := hfail 0 (Nat.succ_pos N)
    rw [Nat.add_zero] at he
    have hlt : attempt < maxRetries := by omega
    have h2 : maxRetries - attempt = maxRetries + 1 - (attempt + 1) := by omega
    have hfail2 : ∀ i, i < N → ∃ e2, op (attempt + 1 + i) = .error e2 := by
      intro i hi
      have h3 : attempt + 1 + i = attempt + (i + 1) := by omega
      rw [h3]
      exact hfail (i + 1) (by omega)
    have hok2 : op (attempt + 1 + N) = .ok subID := by
      have h3 : attempt + 1 + N = attempt + (N + 1) := by omega
      rw [h3]; exact hok
    rw [h1, retryFrom]
    simp only [noCancel_at, noCancel_back, he, hlt, if_true, Bool.false_eq_true, if_false]
    rw [h2, ih (attempt + 1) e subID (by omega) hfail2 hok2]
    simp [backoffSeq]

/-- Retry loop, exhaustion case: with every attempt failing, the loop
performs its full budget of invocations, schedules the doubling backoffs
between them, and returns the wrapped last error with the attempt count. -/
theorem retryFrom_allFail (maxRetries : Nat) (op : Nat → Except String String)
    (errs : Nat → String) (hop : ∀ i, op i = .error (errs i)) :
    ∀ (remaining attempt : Nat) (lastErr : String),
      attempt + remaining = maxRetries →
      retryFrom maxRetries noCancel op attempt (remaining + 1) lastErr =
        ⟨.error ("all " ++ toString (maxRetries + 1) ++ " attempts failed: " ++ errs maxRetries),
         remaining + 1, backoffSeq attempt remaining⟩ := by
  intro remaining
  induction remaining with
  | zero =>
    intro attempt lastErr h
    have ha : attempt = maxRetries := by omega
    subst ha
    rw [retryFrom]
    simp [noCancel_at, noCancel_back, hop attempt, backoffSeq]
  | succ r ih =>
    intro attempt lastErr h
    have hlt : attempt < maxRetries := by omega
    rw [retryFrom]
    simp only [noCancel_at, noCancel_back, hop attempt, hlt, if_true, Bool.false_eq_true, if_false]
    rw [ih (attempt + 1) (errs attempt) (by omega)]
    simp [backoffSeq]

/-- Retry loop, cancellation case: when the context fires during the
backoff after the (N+1)-th failed attempt, the loop aborts at once. -/
theorem retryFrom_cancelBackoff (maxRetries : Nat) (ctx : RetryCtx)
    (op : Nat → Except String String) :
    ∀ (N attempt : Nat) (lastErr e : String),
      attempt + N < maxRetries →
      (∀ i, i ≤ N → ctx.cancelledAtAttempt (attempt + i) = false) →
      (∀ i, i < N → ctx.cancelledInBackoff (attempt + i) = false) →
      (∀ i, i < N → ∃ e2, op (attempt + i) = .error e2) →
      op (attempt + N) = .error e →
      ctx.cancelledInBackoff (attempt + N) = true →
      retryFrom maxRetries ctx op attempt (maxRetries + 1 - attempt) lastErr =
        ⟨.error "context cancelled during backoff", N + 1, backoffSeq attempt (N + 1)⟩ := by
  intro N
  induction N with
  | zero =>
    intro attempt lastErr e hlt hca hcb hfail hke hcbt
    have h1 : maxRetries + 1 - attempt = (maxRetries - attempt) + 1 := by omega
    rw [Nat.add_zero] at hke hcbt
    have hc0 := hca 0 (Nat.le_refl 0)
    rw [Nat.add_zero] at hc0
    have hlt2 : attempt < maxRetries := by omega
    rw [h1, retryFrom]
    simp [hc0, hke, hlt2, hcbt, backoffSeq]
  | succ N ih =>
    intro attempt lastErr e hlt hca hcb hfail hke hcbt
    have h1 : maxRetries + 1 - attempt = (maxRetries - attempt) + 1 := by omega
    obtain ⟨e0, he0⟩ := hfail 0 (Nat.succ_pos N)
    rw [Nat.add_zero] at he0
    have hc0 := hca 0 (Nat.zero_le _)
    rw [Nat.add_zero] at hc0
    have hb0 := hcb 0 (Nat.succ_pos N)
    rw [Nat.add_zero] at hb0
    have hlt2 : attempt < maxRetries := by omega
    have h2 : maxRetries - attempt = maxRetries + 1 - (attempt + 1) := by omega
    have hca2 : ∀ i, i ≤ N → ctx.cancelledAtAttempt (attempt + 1 + i) = false := by
      intro i hi
      have h3 : attempt + 1 + i = attempt + (i + 1) := by omega
      rw [h3]
      exact hca (i + 1) (by omega)
    have hcb2 : ∀ i, i < N → ctx.cancelledInBackoff (attempt + 1 + i) = false := by
      intro i hi
      have h3 : attempt + 1 + i = attempt + (i + 1) := by omega
      rw [h3]
      exact hcb (i + 1) (by omega)
    have hfail2 : ∀ i, i < N → ∃ e2, op (attempt + 1 + i) = .error e2 := by
      intro i hi
      have h3 : attempt + 1 + i = attempt + (i + 1) := by omega
      rw [h3]
      exact hfail (i + 1) (by omega)
    have hke2 : op (attempt + 1 + N) = .error e := by
      have h3 : attempt + 1 + N = attempt + (N + 1) := by omega
      rw [h3]; exact hke
    have hcbt2 : ctx.cancelledInBackoff (attempt + 1 + N) = true := by
      have h3 : attempt + 1 + N = attempt + (N + 1) := by omega
      rw [h3]; exact hcbt
    rw [h1, retryFrom]
    simp only [hc0, he0, hlt2, if_true, hb0, Bool.false_eq_true, if_false]
    rw [h2, ih (attempt + 1) e0 e (by omega) hca2 hcb2 hfail2 hke2 hcbt2]
    simp [backoffSeq]

/-- The k-th scheduled backoff (0-based) of a doubling schedule starting
at 2^a is 2^(a+k). -/
theorem backoffSeq_getD : ∀ (n a k : Nat), k < n → (backoffSeq a n).getD k 0 = 2 ^ (a + k) := by
  intro n
  induction n with
  | zero => intro a k hk; exact absurd hk (Nat.not_lt_zero k)
  | succ n ih =>
    intro a k hk
    cases k with
    | zero => simp [backoffSeq]
    | succ k =>
      have h := ih (a + 1) k (by omega)
      have h3 : a + 1 + k = a + (k + 1) := by omega
      rw [h3] at h
      simpa [backoffSeq] using h

/-- Claim C3: under the retry policy, an operation failing N times with
N < MaxRetries and then succeeding returns the success after N+1 total
invocations; an operation failing on all MaxRetries+1 invocations yields
an error wrapping the last operation error and stating the total attempt
count; the backoff before retry k is 2^(k-1) seconds starting at 1
second; and cancellation during any backoff wait aborts the retry loop. -/
theorem publishWithRetry_spec (maxRetries : Nat) (op : Nat → Except String String) :
    (∀ N subID, N < maxRetries →
      (∀ i, i < N → ∃ e, op i = .error e) → op N = .ok subID →
      (publishWithRetry maxRetries noCancel op).result = .ok subID ∧
      (publishWithRetry maxRetries noCancel op).calls = N + 1) ∧
    (∀ errs : Nat → String, (∀ i, op i = .error (errs i)) →
      (publishWithRetry maxRetries noCancel op).result =
        .error ("all " ++ toString (maxRetries + 1) ++ " attempts failed: " ++ errs maxRetries) ∧
      (publishWithRetry maxRetries noCancel op).calls = maxRetries + 1 ∧
      (publishWithRetry maxRetries noCancel op).backoffs = backoffSeq 0 maxRetries ∧
      (∀ k, k < maxRetries →
        (publishWithRetry maxRetries noCancel op).backoffs.getD k 0 = 2 ^ k)) ∧
    (∀ (ctx : RetryCtx) (N : Nat) (e : String), N < maxRetries →
      (∀ i, i ≤ N → ctx.cancelledAtAttempt i = false) →
      (∀ i, i < N → ctx.cancelledInBackoff i = false) →
      (∀ i, i < N → ∃ e2, op i = .error e2) →
      op N = .error e → ctx.cancelledInBackoff N = true →
      (publishWithRetry maxRetries ctx op).result =
        .error "context cancelled during backoff") := by
  refine ⟨?_, ?_, ?_⟩
  · intro N subID hN hfail hok
    have h : publishWithRetry maxRetries noCancel op = ⟨.ok subID, N + 1, backoffSeq 0 N⟩ := by
      unfold publishWithRetry
      have h0 := retryFrom_ok maxRetries op N 0 "" subID (by omega)
        (fun i hi => by simpa using hfail i hi) (by simpa using hok)
      simpa using h0
    rw [h]
    exact ⟨rfl, rfl⟩
  · intro errs hop
    have h : publishWithRetry maxRetries noCancel op =
        ⟨.error ("all " ++ toString (maxRetries + 1) ++ " attempts failed: " ++ errs maxRetries),
         maxRetries + 1, backoffSeq 0 maxRetries⟩ := by
      unfold publishWithRetry
      exact retryFrom_allFail maxRetries op errs hop maxRetries 0 "" (by omega)
    rw [h]
    refine ⟨rfl, rfl, rfl, ?_⟩
    intro k hk
    have h2 := backoffSeq_getD maxRetries 0 k hk
    simpa using h2
  · intro ctx N e hN hca hcb hfail hke hcbt
    have h : publishWithRetry maxRetries ctx op =
        ⟨.error "context cancelled during backoff", N + 1, backoffSeq 0 (N + 1)⟩ := by
      unfold publishWithRetry
      have h0 := retryFrom_cancelBackoff maxRetries ctx op N 0 "" e (by omega)
        (fun i hi => by simpa using hca i hi) (fun i hi => by simpa using hcb i hi)
        (fun i hi => by simpa using hfail i hi) (by simpa using hke) (by simpa using hcbt)
      simpa using h0
    rw [h]

/-- Witness for C3: with MaxRetries 3, one failure then a success returns
the success after two invocations. -/
theorem publishWithRetry_spec_witness :
    (publishWithRetry 3 noCancel demoRetryOp).result = .ok "sub-1" ∧
    (publishWithRetry 3 noCancel demoRetryOp).calls = 2 :=
  (publishWithRetry_spec 3 demoRetryOp).1 1 "sub-1" (by decide)
    (fun i hi => ⟨"boom", by
      have h0 : i = 0 := by omega
      subst h0
      rfl⟩) rfl

/-- The never-firing subscription context: the top-of-loop check. -/
theorem noSubCancel_atLoop (i : Nat) : noSubCancel.cancelledAtLoop i = false := rfl

/-- The never-firing subscription context: the post-subscribe check. -/
theorem noSubCancel_afterSub (i : Nat) : noSubCancel.cancelledAfterSub i = false := rfl

/-- The never-firing subscription context: the backoff select. -/
theorem noSubCancel_inDelay (i : Nat) : noSubCancel.cancelledInDelay i = false := rfl

/-- Reconnect loop, exhaustion case: with every subscribe attempt failing
and no cancellation, the loop spends its whole budget and emits one error
per attempt followed by the exhaustion error. -/
theorem subLoop_allFail (maxReconnects : Nat) (errs : Nat → String) :
    ∀ (r i : Nat),
      subLoop maxReconnects noSubCancel (fun j => some (errs j)) i r =
        (r, expectedEmits maxReconnects errs i r) := by
  intro r
  induction r with
  | zero => intro i; rfl
  | succ r ih =>
    intro i
    rw [subLoop]
    simp only [noSubCancel_atLoop, noSubCancel_afterSub, noSubCancel_inDelay,
      Bool.false_eq_true, if_false]
    rw [ih (i + 1)]
    simp [expectedEmits]

/-- Every entered reconnect-loop body performs at least one subscribe
attempt when the context never fires. -/
theorem subLoop_pos (maxReconnects : Nat) (so : Nat → Option String) :
    ∀ (r i : Nat), 1 ≤ (subLoop maxReconnects noSubCancel so i (r + 1)).1 := by
  intro r i
  rw [subLoop]
  simp only [noSubCancel_atLoop, noSubCancel_afterSub, noSubCancel_inDelay,
    Bool.false_eq_true, if_false]
  cases so i with
  | none => simp
  | some e => simp

/-- Claim C6: for a transport whose every subscribe attempt fails, the
reconnecting subscriber performs exactly MaxReconnects+1 total attempts
(11 with the default configuration), emits one error per attempt and
then the exhaustion error, closes both streams, and performs no further
reconnect; and when the cancellation signal has already fired, it
returns with both streams closed without emitting any reconnect error. -/
theorem runSubscription_spec (maxReconnects : Nat) (errs : Nat → String) :
    ((runSubscription maxReconnects noSubCancel (fun i => some (errs i))).attempts =
        maxReconnects + 1 ∧
     (runSubscription maxReconnects noSubCancel (fun i => some (errs i))).emitted =
        expectedEmits maxReconnects errs 0 (maxReconnects + 1) ∧
     (runSubscription maxReconnects noSubCancel (fun i => some (errs i))).msgClosed = true ∧
     (runSubscription maxReconnects noSubCancel (fun i => some (errs i))).errClosed = true) ∧
    resolveMaxReconnects 0 + 1 = 11 ∧
    (∀ ctx : SubCtx, ctx.cancelledAtLoop 0 = true →
      (runSubscription maxReconnects ctx (fun i => some (errs i))).attempts = 0 ∧
      (runSubscription maxReconnects ctx (fun i => some (errs i))).emitted = [] ∧
      (runSubscription maxReconnects ctx (fun i => some (errs i))).msgClosed = true ∧
      (runSubscription maxReconnects ctx (fun i => some (errs i))).errClosed = true) := by
  refine ⟨?_, by decide, ?_⟩
  · have h := subLoop_allFail maxReconnects errs (maxReconnects + 1) 0
    unfold runSubscription
    rw [h]
    exact ⟨rfl, rfl, rfl, rfl⟩
  · intro ctx hc
    have h : subLoop maxReconnects ctx (fun i => some (errs i)) 0 (maxReconnects + 1) =
        (0, []) := by
      rw [subLoop]
      simp [hc]
    unfold runSubscription
    rw [h]
    exact ⟨rfl, rfl, rfl, rfl⟩

/-- Witness for C6: with MaxReconnects 1, a transport failing every
attempt yields exactly 2 subscribe attempts; an already-fired context
yields 0 attempts and no emission. -/
theorem runSubscription_spec_witness :
    (runSubscription 1 noSubCancel (fun _ => some "down")).attempts = 1 + 1 ∧
    (runSubscription 1 demoSubCtx (fun _ => some "down")).attempts = 0 ∧
    (runSubscription 1 demoSubCtx (fun _ => some "down")).emitted = [] :=
  ⟨((runSubscription_spec 1 (fun _ => "down")).1).1,
   ((runSubscription_spec 1 (fun _ => "down")).2.2 demoSubCtx rfl).1,
   ((runSubscription_spec 1 (fun _ => "down")).2.2 demoSubCtx rfl).2.1⟩

/-- Claim C5, counterexample: with the observed event sequence "one
transport error, then a valid broadcast task assignment" — exactly what a
transient failure followed by a successful resubscription delivers to the
consumer — StartSubscription has already returned on the error, so the
valid task never reaches the inbound queue, although the same message
alone would be enqueued. -/
theorem startSubscription_counterexample :
    (startSubLoop "agent-1" [.errEvent (some "network down"), .msgEvent (some demoRaw)] []).2 =
      [] ∧
    (startSubLoop "agent-1" [.errEvent (some "network down"), .msgEvent (some demoRaw)] []).1 =
      LoopResult.returned (.error "hcs: subscription error: hcs: topic subscription failed") ∧
    (startSubLoop "agent-1" [.msgEvent (some demoRaw)] []).2 = [demoRawTask] :=
  ⟨rfl, rfl, rfl⟩

/-- Claim C5 (amended): on a transport-level subscription failure the
transport layer does resubscribe (a second subscribeOnce attempt occurs
whenever the budget allows and the context is live), but the handler's
consumer loop returns ErrSubscriptionFailed on the first non-nil value it
observes on the error stream, leaving the inbound queue exactly as it
was: task assignments delivered after the resubscription are not
enqueued by this StartSubscription call. -/
theorem startSubscription_errorTerminates (agentID e : String) (rest : List LoopEvent)
    (q : List TaskAssignment) (maxReconnects : Nat) (subOutcome : Nat → Option String)
    (e0 : String) (hfail : subOutcome 0 = some e0) (hmax : 1 ≤ maxReconnects) :
    2 ≤ (runSubscription maxReconnects noSubCancel subOutcome).attempts ∧
    startSubLoop agentID (.errEvent (some e) :: rest) q =
      (.returned (.error "hcs: subscription error: hcs: topic subscription failed"), q) := by
  constructor
  · obtain ⟨m, rfl⟩ : ∃ m, maxReconnects = m + 1 := ⟨maxReconnects - 1, by omega⟩
    have h : (runSubscription (m + 1) noSubCancel subOutcome).attempts =
        (subLoop (m + 1) noSubCancel subOutcome 1 (m + 1)).1 + 1 := by
      unfold runSubscription
      rw [subLoop]
      simp [noSubCancel_atLoop, noSubCancel_afterSub, noSubCancel_inDelay, hfail]
    rw [h]
    have h2 := subLoop_pos (m + 1) subOutcome m 1
    omega
  · rfl

/-- Witness for amended C5: a concrete failing first attempt and a
concrete observed error event. -/
theorem startSubscription_errorTerminates_witness :
    2 ≤ (runSubscription 1 noSubCancel (fun _ => some "boom")).attempts ∧
    startSubLoop "agent-1" [.errEvent (some "network down"), .msgEvent (some demoRaw)] [] =
      (.returned (.error "hcs: subscription error: hcs: topic subscription failed"), []) :=
  startSubscription_errorTerminates "agent-1" "network down" [.msgEvent (some demoRaw)] []
    1 (fun _ => some "boom") "boom" rfl (by decide)

/-- Claim C7: for an authenticated compute request, a first unauthorized
(401) response triggers a fresh credential (new timestamp, new
signature) and exactly one retry; a second unauthorized response is
surfaced to the caller as a terminal error by the status check; and no
request is ever retried more than once by this mechanism — for any first
response status other than unauthorized (or any transport failure), no
retry occurs and the response is returned as is. -/
theorem doWithAuthRetry_spec (key now1 now2 : Nat)
    (respond : Nat → Except String HttpResponse) :
    (∀ resp, respond 0 = .ok resp → resp.status = unauthorizedStatus →
      (doWithAuthRetry true key now1 now2 respond).calls = 2 ∧
      (doWithAuthRetry true key now1 now2 respond).tokens =
        [some (buildAuthToken key now1), some (buildAuthToken key now2)] ∧
      (now2 ≠ now1 →
        (buildAuthToken key now2).timestamp ≠ (buildAuthToken key now1).timestamp ∧
        (buildAuthToken key now2).sig ≠ (buildAuthToken key now1).sig)) ∧
    (∀ resp resp2, respond 0 = .ok resp → resp.status = unauthorizedStatus →
      respond 1 = .ok resp2 → resp2.status = unauthorizedStatus →
      submitStatusCheck (doWithAuthRetry true key now1 now2 respond).result =
        .error ("compute: provider returned status " ++ toString resp2.status ++ ": " ++
          resp2.body) ∧
      (doWithAuthRetry true key now1 now2 respond).calls = 2) ∧
    (∀ hasKey, (doWithAuthRetry hasKey key now1 now2 respond).calls ≤ 2) ∧
    (∀ (hasKey : Bool) resp, respond 0 = .ok resp → resp.status ≠ unauthorizedStatus →
      (doWithAuthRetry hasKey key now1 now2 respond).result = .ok resp ∧
      (doWithAuthRetry hasKey key now1 now2 respond).calls = 1) := by
  refine ⟨?_, ?_, ?_, ?_⟩
  · intro resp h0 h401
    have hfresh : now2 ≠ now1 →
        (buildAuthToken key now2).timestamp ≠ (buildAuthToken key now1).timestamp ∧
        (buildAuthToken key now2).sig ≠ (buildAuthToken key now1).sig := by
      intro hne
      constructor
      · simpa [buildAuthToken] using hne
      · simpa [buildAuthToken, signAuth, Prod.ext_iff] using hne
    have hcalls : (doWithAuthRetry true key now1 now2 respond).calls = 2 ∧
        (doWithAuthRetry true key now1 now2 respond).tokens =
          [some (buildAuthToken key now1), some (buildAuthToken key now2)] := by
      cases h1 : respond 1 with
      | error e =>
        unfold doWithAuthRetry
        simp [h0, h1, h401]
      | ok r2 =>
        unfold doWithAuthRetry
        simp [h0, h1, h401]
    exact ⟨hcalls.1, hcalls.2, hfresh⟩
  · intro resp resp2 h0 h401 h1 h401b
    unfold doWithAuthRetry
    simp only [h0, h1, h401]
    simp [submitStatusCheck, h401b, unauthorizedStatus]
  · intro hasKey
    unfold doWithAuthRetry
    cases h0 : respond 0 with
    | error e => simp
    | ok resp =>
      simp only []
      split
      · simp
      · cases h1 : respond 1 with
        | error e => simp [h1]
        | ok r2 => simp [h1]
  · intro hasKey resp h0 hstat
    unfold doWithAuthRetry
    simp [h0, hstat]

/-- Witness for C7: two consecutive 401 responses; the credential is
refreshed once, two calls are made, and the caller sees a terminal
error. -/
theorem doWithAuthRetry_spec_witness :
    (doWithAuthRetry true 5 1000 1001 (fun _ => .ok { status := 401, body := "denied" })).calls =
      2 ∧
    (doWithAuthRetry true 5 1000 1001
        (fun _ => .ok { status := 401, body := "denied" })).tokens =
      [some (buildAuthToken 5 1000), some (buildAuthToken 5 1001)] ∧
    submitStatusCheck (doWithAuthRetry true 5 1000 1001
        (fun _ => .ok { status := 401, body := "denied" })).result =
      .error ("compute: provider returned status " ++ toString 401 ++ ": " ++ "denied") :=
  ⟨((doWithAuthRetry_spec 5 1000 1001 (fun _ => .ok { status := 401, body := "denied" })).1
      { status := 401, body := "denied" } rfl rfl).1,
   ((doWithAuthRetry_spec 5 1000 1001 (fun _ => .ok { status := 401, body := "denied" })).1
      { status := 401, body := "denied" } rfl rfl).2.1,
   ((doWithAuthRetry_spec 5 1000 1001 (fun _ => .ok { status := 401, body := "denied" })).2.1
      { status := 401, body := "denied" } { status := 401, body := "denied" }
      rfl rfl rfl rfl).1⟩

/-- Claim C8: after one successful discovery, resolutions within the TTL
window return the identical provider list without any further discovery
call; a resolution after TTL expiry issues exactly one new discovery
call; and a successful discovery replaces the entire cached model set
wholesale (whatever was cached before) and resets the TTL clock to a
full new window. -/
theorem listModels_cache_spec (c : ModelCache) (t0 : Nat) (services : List ServiceEntry)
    (hmiss : cachedModels t0 c = none) (hne : services ≠ []) :
    listModels t0 false c (.entries services) =
      (.ok (services.map toModel), cacheModels t0 (services.map toModel), 1) ∧
    cacheModels t0 (services.map toModel) =
      { models := some (services.map toModel), modelsTTL := t0 + modelCacheDuration } ∧
    (∀ t1 t2 d1 d2, t1 < t0 + modelCacheDuration → t2 < t0 + modelCacheDuration →
      listModels t1 false (cacheModels t0 (services.map toModel)) d1 =
        (.ok (services.map toModel), cacheModels t0 (services.map toModel), 0) ∧
      listModels t2 false (cacheModels t0 (services.map toModel)) d2 =
        (.ok (services.map toModel), cacheModels t0 (services.map toModel), 0)) ∧
    (∀ t3 d3, t0 + modelCacheDuration ≤ t3 →
      (listModels t3 false (cacheModels t0 (services.map toModel)) d3).2.2 = 1) := by
  have hempty : services.isEmpty = false := by
    cases services with
    | nil => exact absurd rfl hne
    | cons a l => rfl
  refine ⟨?_, rfl, ?_, ?_⟩
  · simp [listModels, hmiss, hempty]
  · intro t1 t2 d1 d2 ht1 ht2
    constructor
    · simp [listModels, cachedModels, cacheModels, ht1]
    · simp [listModels, cachedModels, cacheModels, ht2]
  · intro t3 d3 ht3
    have hmiss3 : cachedModels t3 (cacheModels t0 (services.map toModel)) = none := by
      simp [cachedModels, cacheModels]
      omega
    cases d3 with
    | transportErr => simp [listModels, hmiss3]
    | badStatus code body => simp [listModels, hmiss3]
    | parseErr => simp [listModels, hmiss3]
    | entries s2 =>
      by_cases hs : s2.isEmpty
      · simp [listModels, hmiss3, hs]
      · simp [listModels, hmiss3, hs]

/-- Witness for C8: a stale prior cache is wholesale-replaced at time
500; a read at 600 is served from the cache with no discovery call; a
read at 800 (past the 300-second TTL) issues one discovery call. -/
theorem listModels_cache_spec_witness :
    listModels 500 false demoOldCache (.entries demoServices) =
      (.ok (demoServices.map toModel), cacheModels 500 (demoServices.map toModel), 1) ∧
    listModels 600 false (cacheModels 500 (demoServices.map toModel)) .transportErr =
      (.ok (demoServices.map toModel), cacheModels 500 (demoServices.map toModel), 0) ∧
    (listModels 800 false (cacheModels 500 (demoServices.map toModel))
        (.entries demoServices)).2.2 = 1 :=
  ⟨(listModels_cache_spec demoOldCache 500 demoServices rfl (by decide)).1,
   ((listModels_cache_spec demoOldCache 500 demoServices rfl (by decide)).2.2.1
      600 600 .transportErr .transportErr (by decide) (by decide)).1,
   (listModels_cache_spec demoOldCache 500 demoServices rfl (by decide)).2.2.2
      800 (.entries demoServices) (by decide)⟩

/-- Claim C9: for every metadata map and 32-byte key, decrypting the
output of encryptMetadata with the same key returns the original map;
decrypting with any different 32-byte key fails; and both functions
reject keys of any length other than 32 bytes. -/
theorem encryptMetadata_spec (key : List Nat) (keyID : String)
    (meta : List (String × String)) (nonce : List Nat) (hkey : key.length = 32) :
    (∀ enc, encryptMetadata key keyID meta nonce = .ok enc →
      decryptMetadata key enc = .ok meta) ∧
    (∀ enc key2, encryptMetadata key keyID meta nonce = .ok enc →
      key2.length = 32 → key2 ≠ key →
      decryptMetadata key2 enc =
        .error "inft: decryption failed: inft: metadata encryption failed") ∧
    (∀ key3, key3.length ≠ 32 →
      encryptMetadata key3 keyID meta nonce =
        .error ("inft: encryption key must be 32 bytes, got " ++ toString key3.length ++
          ": inft: metadata encryption failed") ∧
      (∀ enc, decryptMetadata key3 enc =
        .error ("inft: decryption key must be 32 bytes, got " ++ toString key3.length ++
          ": inft: metadata encryption failed"))) := by
  have henc : encryptMetadata key keyID meta nonce =
      .ok { ciphertext := gcmSeal key nonce meta, nonce := nonce
            keyID := keyID, algorithm := "AES-256-GCM" } := by
    simp [encryptMetadata, hkey]
  refine ⟨?_, ?_, ?_⟩
  · intro enc h
    rw [henc] at h
    cases h
    simp [decryptMetadata, hkey, gcmOpen, gcmSeal]
  · intro enc key2 h hk2 hne
    rw [henc] at h
    cases h
    simp [decryptMetadata, hk2, gcmOpen, gcmSeal, hne.symm]
  · intro key3 hk3
    refine ⟨by simp [encryptMetadata, hk3], ?_⟩
    intro enc
    simp [decryptMetadata, hk3]

/-- Witness for C9: a concrete round trip, a concrete wrong-key failure,
and a concrete short-key rejection. -/
theorem encryptMetadata_spec_witness :
    decryptMetadata demoKey demoEncrypted = .ok demoMeta ∧
    decryptMetadata demoKey2 demoEncrypted =
      .error "inft: decryption failed: inft: metadata encryption failed" ∧
    encryptMetadata demoBadKey "key-1" demoMeta demoNonce =
      .error ("inft: encryption key must be 32 bytes, got " ++ toString demoBadKey.length ++
        ": inft: metadata encryption failed") :=
  ⟨(encryptMetadata_spec demoKey "key-1" demoMeta demoNonce (by decide)).1
      demoEncrypted rfl,
   (encryptMetadata_spec demoKey "key-1" demoMeta demoNonce (by decide)).2.1
      demoEncrypted demoKey2 rfl (by decide) (by decide),
   ((encryptMetadata_spec demoKey "key-1" demoMeta demoNonce (by decide)).2.2
      demoBadKey (by decide)).1⟩

/-- Claim C10: for every job ID returned by a successful SubmitJob, a
subsequent GetResult with that job ID and an uncancelled context returns
the cached result at once — status completed, output and token usage
taken from the provider's response — without entering the poll loop, for
every configured poll interval and poll timeout. -/
theorem getResult_cacheHit_spec (st : ResultsMap) (url : String) (resp : ChatResponse)
    (hok : resp.error = none) :
    submitJob st false (.ok url) (.parsed resp) =
      (.ok resp.id, storeResult st resp.id (cachedJobResult resp)) ∧
    (∀ pollInterval pollTimeout cancelAtTick,
      getResult pollInterval pollTimeout (storeResult st resp.id (cachedJobResult resp)) false
        cancelAtTick resp.id = (.ok (cachedJobResult resp), false)) ∧
    (cachedJobResult resp).status = .completed ∧
    (cachedJobResult resp).output = resp.choices.headD "" ∧
    (cachedJobResult resp).tokensUsed = resp.totalTokens := by
  refine ⟨?_, ?_, rfl, rfl, rfl⟩
  · simp [submitJob, hok]
  · intro pollInterval pollTimeout cancelAtTick
    have hfind : loadResult (storeResult st resp.id (cachedJobResult resp)) resp.id =
        some (cachedJobResult resp) := by
      simp [loadResult, storeResult]
    simp [getResult, hfind]

/-- Witness for C10: the demo submission followed by a GetResult under
two different poll configurations, both served from the cache. -/
theorem getResult_cacheHit_spec_witness :
    submitJob [] false (.ok "http-url") (.parsed demoChatResp) =
      (.ok demoChatResp.id, storeResult [] demoChatResp.id (cachedJobResult demoChatResp)) ∧
    getResult 2 300 (storeResult [] demoChatResp.id (cachedJobResult demoChatResp)) false
      (fun _ => false) demoChatResp.id = (.ok (cachedJobResult demoChatResp), false) ∧
    getResult 1 7 (storeResult [] demoChatResp.id (cachedJobResult demoChatResp)) false
      (fun _ => false) demoChatResp.id = (.ok (cachedJobResult demoChatResp), false) :=
  ⟨(getResult_cacheHit_spec [] "http-url" demoChatResp rfl).1,
   (getResult_cacheHit_spec [] "http-url" demoChatResp rfl).2.1 2 300 (fun _ => false),
   (getResult_cacheHit_spec [] "http-url" demoChatResp rfl).2.1 1 7 (fun _ => false)⟩

end AgentInference
